import Mathlib

/-!
Shallow embedding of the face-recognition demo UI (src/src/App.tsx).

The component keeps seven pieces of React state (App.tsx lines 9-15):
modelsLoaded, referenceImage, referenceDescriptor, matchResult,
capturedImage, capturedDescriptor, isProcessing.  Descriptors
(Float32Array in the source) are modelled as lists of rationals;
the real-valued Euclidean distance and similarity live in ℝ.

Each event handler of the component becomes a state-transition
function.  Asynchronous library calls (face detection) are modelled by
passing their outcome as an explicit argument: the handler body then
follows the source control flow on that outcome.
-/

namespace FaceRec

/-- Result message shown in the result area.  The source keeps it as a
string (matchResult); the fixed diagnostic strings are kept verbatim in
the text constructor, while the comparison result built at App.tsx
lines 158-161 is kept structured as matchReport, carrying the
similarity value that the source renders with toFixed(2) and the
boolean of the test distance < matchThreshold that selects between the
strings "✅ Face Match Found!" and "❌ No Match Found". -/
inductive Msg where
  | text (s : String)
  | matchReport (similarity : ℝ) (isMatch : Bool)
deriving Inhabited

/-- The React state of the App component (App.tsx lines 9-15).
Images are object URLs / data URLs, modelled as strings. -/
structure AppState where
  modelsLoaded : Bool
  referenceImage : Option String
  referenceDescriptor : Option (List ℚ)
  matchResult : Msg
  capturedImage : Option String
  capturedDescriptor : Option (List ℚ)
  isProcessing : Bool

/-- Initial state produced by the useState initialisers
(App.tsx lines 9-15): all flags false, all data absent, empty message. -/
def initialState : AppState :=
  { modelsLoaded := false
    referenceImage := none
    referenceDescriptor := none
    matchResult := .text ""
    capturedImage := none
    capturedDescriptor := none
    isProcessing := false }

/-- Outcome of the asynchronous detectSingleFace pipeline at a call
site: a descriptor was found, no face was found (the library resolved
with undefined), or the awaited call threw. -/
inductive DetectionResult where
  | found (descriptor : List ℚ)
  | notFound
  | errored

/-- loadModels (App.tsx lines 18-32): on success of all five
loadFromUri calls it sets modelsLoaded to true; on failure the catch
block only logs, leaving the state unchanged.  It runs once, from a
useEffect with an empty dependency list (lines 17-35). -/
def loadModels (s : AppState) (success : Bool) : AppState :=
  if success then { s with modelsLoaded := true } else s

/-- handleImageUpload (App.tsx lines 66-101).  Guard (line 68): return
if no file was selected or models are not loaded.  Otherwise the
handler first sets referenceImage to the object URL of the file
(line 73), then awaits face detection; on a found face it stores the
descriptor (line 88), on no face it sets the no-face message (line 92),
and if the awaited work throws, the catch sets the error message
(line 99).  It never touches isProcessing. -/
def handleImageUpload (s : AppState) (file : Option String) (imageUrl : String)
    (det : DetectionResult) : AppState :=
  if file.isNone || !s.modelsLoaded then s
  else
    let s1 := { s with referenceImage := some imageUrl }
    match det with
    | .found d => { s1 with referenceDescriptor := some d }
    | .notFound => { s1 with matchResult := .text "No face detected in the uploaded image" }
    | .errored => { s1 with matchResult := .text "Error processing the image" }

/-- Outcome of one run of the try block of captureImage: a face was
found in the captured frame, no face was found, or the block threw.
For the failure case, imgSet records whether setCapturedImage had
already run when the throw happened (the canvas-context throw at
line 115 precedes it, a detection throw at lines 128-131 follows it). -/
inductive CaptureOutcome where
  | success (imgSrc : String) (descriptor : List ℚ)
  | noFace (imgSrc : String)
  | failure (imgSet : Option String)

/-- captureImage (App.tsx lines 103-146).  Guard (line 104): return if
the video or canvas ref is null or models are not loaded.  Otherwise it
sets isProcessing to true (line 106), runs the try block — storing the
captured image (line 126) and then either the descriptor (line 134) or
the no-face message (line 138), with the catch setting the error
message (line 142) — and the finally block sets isProcessing back to
false (line 144) on every path. -/
def captureImage (s : AppState) (refsReady : Bool) (out : CaptureOutcome) : AppState :=
  if !refsReady || !s.modelsLoaded then s
  else
    let s1 := { s with isProcessing := true }
    let s2 :=
      match out with
      | .success src d => { s1 with capturedImage := some src, capturedDescriptor := some d }
      | .noFace src =>
          { s1 with capturedImage := some src
                    matchResult := .text "No face detected in captured image" }
      | .failure imgSet =>
          { s1 with capturedImage := match imgSet with
                      | some src => some src
                      | none => s1.capturedImage
                    matchResult := .text "Error processing the captured image" }
    { s2 with isProcessing := false }

/-- Sum of squared componentwise differences, the value under the
square root in faceapi.euclideanDistance:
desc1.map((val, i) => val - desc2[i]).reduce((res, diff) => res + diff ** 2, 0). -/
def sumSqDiff (a b : List ℚ) : ℚ :=
  (List.zipWith (fun x y => (x - y) ^ 2) a b).sum

/-- faceapi.euclideanDistance: the square root of the sum of squared
componentwise differences of the two descriptors. -/
noncomputable def euclideanDistance (a b : List ℚ) : ℝ :=
  Real.sqrt ((sumSqDiff a b : ℚ) : ℝ)

/-- The fixed match threshold (App.tsx line 156). -/
noncomputable def matchThreshold : ℝ := 0.5

open Classical in
/-- performFaceMatch (App.tsx lines 148-162).  Guard (line 149): when
either descriptor is absent it only sets the message "Please ensure
both images have detected faces" and returns.  Otherwise it computes
the Euclidean distance (line 154), the clamped similarity
Math.max(0, Math.min(100, (1 - distance) * 100)) (line 155), and sets
the structured match report with the test distance < matchThreshold
(lines 158-161). -/
noncomputable def performFaceMatch (s : AppState) : AppState :=
  match s.referenceDescriptor, s.capturedDescriptor with
  | some rd, some cd =>
      let distance := euclideanDistance rd cd
      let similarity := max 0 (min 100 ((1 - distance) * 100))
      { s with matchResult :=
          .matchReport similarity (if distance < matchThreshold then true else false) }
  | _, _ => { s with matchResult := .text "Please ensure both images have detected faces" }

/-- resetCapture (App.tsx lines 164-170): clears both images, both
descriptors and the result message. -/
def resetCapture (s : AppState) : AppState :=
  { s with capturedImage := none
           referenceImage := none
           referenceDescriptor := none
           capturedDescriptor := none
           matchResult := .text "" }

/-! ### Rendered control attributes (App.tsx lines 172-277) -/

/-- The file input of the upload label (App.tsx lines 182-188) carries
no disabled attribute: it is always enabled. -/
def uploadDisabled (_s : AppState) : Bool := false

/-- The capture button (App.tsx lines 191-198) is disabled exactly
when isProcessing holds (line 193). -/
def captureDisabled (s : AppState) : Bool := s.isProcessing

/-- The compare button is rendered only when both images are present
(App.tsx line 200). -/
def compareRendered (s : AppState) : Bool :=
  s.referenceImage.isSome && s.capturedImage.isSome

/-- The compare button (App.tsx lines 201-207) is disabled when
isProcessing holds or either descriptor is absent (line 203). -/
def compareDisabled (s : AppState) : Bool :=
  s.isProcessing || s.referenceDescriptor.isNone || s.capturedDescriptor.isNone

/-- The reset button (App.tsx lines 210-218) carries no disabled
attribute: whenever rendered, it is enabled. -/
def resetDisabled (_s : AppState) : Bool := false

/-- The loading indicator (App.tsx lines 269-273) is shown exactly
when modelsLoaded is false. -/
def loadingIndicatorShown (s : AppState) : Bool := !s.modelsLoaded

/-! ### Intermediate states of in-flight asynchronous handlers -/

/-- The visible state while handleImageUpload awaits face detection:
setReferenceImage has run (App.tsx line 73) and nothing else has; in
particular isProcessing was not set. -/
def uploadAwaiting (s : AppState) (imageUrl : String) : AppState :=
  { s with referenceImage := some imageUrl }

/-- The visible state while captureImage is inside its try block,
right after setIsProcessing(true) (App.tsx line 106). -/
def captureAwaiting (s : AppState) : AppState :=
  { s with isProcessing := true }

/-! ### User events and runs, for temporal claims -/

/-- A user-triggered event after startup, with the outcome of any
asynchronous call it makes. -/
inductive Event where
  | upload (file : Option String) (imageUrl : String) (det : DetectionResult)
  | capture (refsReady : Bool) (out : CaptureOutcome)
  | compare
  | reset

/-- Dispatch one event to its handler. -/
noncomputable def step (s : AppState) : Event → AppState
  | .upload f u det => handleImageUpload s f u det
  | .capture r out => captureImage s r out
  | .compare => performFaceMatch s
  | .reset => resetCapture s

/-- Run a sequence of user events from a state. -/
noncomputable def run (s : AppState) (evs : List Event) : AppState :=
  evs.foldl step s

/-! ### Message observers -/

/-- The similarity value reported in the result area, when the message
is a comparison report. -/
def similarityReported : Msg → Option ℝ
  | .matchReport sim _ => some sim
  | _ => none

/-- The match classification reported in the result area, when the
message is a comparison report. -/
def matchReported : Msg → Option Bool
  | .matchReport _ m => some m
  | _ => none

/-! ### Concrete states used as witnesses and counterexamples -/

/-- The state right after the models loaded successfully. -/
def readyState : AppState := { initialState with modelsLoaded := true }

/-- A state with both images shown but only the captured descriptor
present (for example, the upload found no face). -/
def stMissingRef : AppState :=
  { readyState with referenceImage := some "ref.png"
                    capturedImage := some "cap.jpg"
                    capturedDescriptor := some [0] }

/-- A state with both images shown but only the reference descriptor
present. -/
def stMissingCap : AppState :=
  { readyState with referenceImage := some "ref.png"
                    capturedImage := some "cap.jpg"
                    referenceDescriptor := some [0] }

/-- A ready state that already holds a reference image and descriptor
from a previous successful upload. -/
def stWithRef : AppState :=
  { readyState with referenceImage := some "old.png"
                    referenceDescriptor := some [1] }

/-! ### Helper lemmas -/

theorem handleImageUpload_isProcessing (s : AppState) (f : Option String) (u : String)
    (det : DetectionResult) :
    (handleImageUpload s f u det).isProcessing = s.isProcessing := by
  unfold handleImageUpload
  split
  · rfl
  · cases det <;> rfl

open Classical in
theorem performFaceMatch_some (s : AppState) (rd cd : List ℚ)
    (h1 : s.referenceDescriptor = some rd) (h2 : s.capturedDescriptor = some cd) :
    performFaceMatch s = { s with matchResult :=
      (Msg.matchReport (max 0 (min 100 ((1 - euclideanDistance rd cd) * 100)))
        (if euclideanDistance rd cd < matchThreshold then true else false)) } := by
  unfold performFaceMatch
  rw [h1, h2]

/-! ### Claims -/

/-- C4: from every state, resetCapture leaves a state in which the
reference image, the captured image, the reference descriptor, the
captured descriptor and the result message are all cleared,
unconditionally. -/
theorem claim_C4_reset_clears_all (s : AppState) :
    (resetCapture s).referenceImage = none ∧
    (resetCapture s).capturedImage = none ∧
    (resetCapture s).referenceDescriptor = none ∧
    (resetCapture s).capturedDescriptor = none ∧
    (resetCapture s).matchResult = .text "" :=
  ⟨rfl, rfl, rfl, rfl, rfl⟩

/-- C3, counterexample: the claim says the diagnostic message names
the missing input, but the guard of performFaceMatch emits the one
fixed string "Please ensure both images have detected faces" in every
blocked state: at the concrete state where the reference descriptor is
the missing one and at the concrete state where the captured
descriptor is the missing one, the message is the same, so it cannot
name which input is missing. -/
theorem claim_C3_cex :
    (performFaceMatch stMissingRef).matchResult
        = .text "Please ensure both images have detected faces" ∧
    (performFaceMatch stMissingCap).matchResult
        = .text "Please ensure both images have detected faces" ∧
    (performFaceMatch stMissingRef).matchResult
        = (performFaceMatch stMissingCap).matchResult :=
  ⟨rfl, rfl, rfl⟩

/-- C3, amended: whenever either descriptor is absent, invoking the
compare action computes no similarity score and sets the fixed
diagnostic message asking to ensure both images have detected faces
(the same message whichever input is missing), and the compare button
is disabled in every such state. -/
theorem claim_C3_compare_blocked (s : AppState)
    (h : s.referenceDescriptor = none ∨ s.capturedDescriptor = none) :
    performFaceMatch s
        = { s with matchResult := .text "Please ensure both images have detected faces" } ∧
    similarityReported (performFaceMatch s).matchResult = none ∧
    compareDisabled s = true := by
  obtain ⟨ml, ri, rd0, mr, ci, cd0, ip⟩ := s
  dsimp only at h
  rcases h with h | h <;> subst h
  · cases cd0 <;> exact ⟨rfl, rfl, by simp [compareDisabled]⟩
  · cases rd0 <;> exact ⟨rfl, rfl, by simp [compareDisabled]⟩

theorem claim_C3_compare_blocked_witness :
    performFaceMatch stMissingRef
        = { stMissingRef with
              matchResult := .text "Please ensure both images have detected faces" } ∧
    similarityReported (performFaceMatch stMissingRef).matchResult = none ∧
    compareDisabled stMissingRef = true :=
  claim_C3_compare_blocked stMissingRef (Or.inl rfl)

/-- C10: every invocation of captureImage that passes its initial
guard ends with isProcessing false, whatever the outcome of the try
block (success, no face, or a throw at either point). -/
theorem claim_C10_capture_resets_processing (s : AppState) (out : CaptureOutcome)
    (hm : s.modelsLoaded = true) :
    (captureImage s true out).isProcessing = false := by
  cases out <;> simp [captureImage, hm]

theorem claim_C10_capture_resets_processing_witness :
    (captureImage readyState true (.failure none)).isProcessing = false :=
  claim_C10_capture_resets_processing readyState (.failure none) rfl

/-- C9: when a previous upload stored a reference descriptor and a new
upload finds no face, handleImageUpload replaces the displayed
reference image with the new one but leaves the old reference
descriptor in place. -/
theorem claim_C9_stale_descriptor (s : AppState) (d : List ℚ) (f u : String)
    (hm : s.modelsLoaded = true) (hprev : s.referenceDescriptor = some d) :
    (handleImageUpload s (some f) u .notFound).referenceImage = some u ∧
    (handleImageUpload s (some f) u .notFound).referenceDescriptor = some d := by
  simp [handleImageUpload, hm, hprev]

theorem claim_C9_stale_descriptor_witness :
    (handleImageUpload stWithRef (some "new.png") "new-url" .notFound).referenceImage
        = some "new-url" ∧
    (handleImageUpload stWithRef (some "new.png") "new-url" .notFound).referenceDescriptor
        = some [1] :=
  claim_C9_stale_descriptor stWithRef [1] "new.png" "new-url" rfl rfl

/-- C8: a not-found signal from face detection is handled at its call
site and surfaced as the corresponding user-visible message: the
upload handler sets the uploaded-image message without touching the
stored descriptor or the processing flag, and the capture handler sets
the captured-image message without touching the stored descriptor,
ending with isProcessing false.  Both handlers are total functions of
the single detection outcome they consume, so no error propagates
beyond the interaction and no retry occurs. -/
theorem claim_C8_no_face_surfaced (s : AppState) (f u src : String)
    (hm : s.modelsLoaded = true) :
    (handleImageUpload s (some f) u .notFound).matchResult
        = .text "No face detected in the uploaded image" ∧
    (handleImageUpload s (some f) u .notFound).referenceDescriptor
        = s.referenceDescriptor ∧
    (handleImageUpload s (some f) u .notFound).isProcessing = s.isProcessing ∧
    (captureImage s true (.noFace src)).matchResult
        = .text "No face detected in captured image" ∧
    (captureImage s true (.noFace src)).capturedDescriptor = s.capturedDescriptor ∧
    (captureImage s true (.noFace src)).isProcessing = false := by
  refine ⟨?_, ?_, ?_, ?_, ?_, ?_⟩ <;> simp [handleImageUpload, captureImage, hm]

theorem claim_C8_no_face_surfaced_witness :
    (handleImageUpload readyState (some "a.png") "url-a" .notFound).matchResult
        = .text "No face detected in the uploaded image" ∧
    (handleImageUpload readyState (some "a.png") "url-a" .notFound).referenceDescriptor
        = readyState.referenceDescriptor ∧
    (handleImageUpload readyState (some "a.png") "url-a" .notFound).isProcessing
        = readyState.isProcessing ∧
    (captureImage readyState true (.noFace "frame.jpg")).matchResult
        = .text "No face detected in captured image" ∧
    (captureImage readyState true (.noFace "frame.jpg")).capturedDescriptor
        = readyState.capturedDescriptor ∧
    (captureImage readyState true (.noFace "frame.jpg")).isProcessing = false :=
  claim_C8_no_face_surfaced readyState "a.png" "url-a" "frame.jpg" rfl

/-- C5, counterexample: during an in-flight upload started from the
ready state, no control is disabled: the upload input, the capture
button and the reset button all remain enabled (isProcessing is still
false, since handleImageUpload never sets it), so a second invocation
can start while the first is in flight, contrary to the claim that
every action is gated by disabling controls. -/
theorem claim_C5_cex :
    uploadDisabled (uploadAwaiting readyState "url-u") = false ∧
    captureDisabled (uploadAwaiting readyState "url-u") = false ∧
    resetDisabled (uploadAwaiting readyState "url-u") = false ∧
    (uploadAwaiting readyState "url-u").isProcessing = false :=
  ⟨rfl, rfl, rfl, rfl⟩

/-- C5, amended: only the capture and compare buttons are gated, and
only by captureImage: they are disabled exactly while isProcessing
holds, which captureImage sets during its try block; the upload input
and the reset button are never disabled, and handleImageUpload leaves
isProcessing unchanged, so an upload is not gated at all. -/
theorem claim_C5_gating (s : AppState) (f : Option String) (u : String)
    (det : DetectionResult) :
    uploadDisabled s = false ∧
    resetDisabled s = false ∧
    captureDisabled s = s.isProcessing ∧
    captureDisabled (captureAwaiting s) = true ∧
    compareDisabled (captureAwaiting s) = true ∧
    (handleImageUpload s f u det).isProcessing = s.isProcessing :=
  ⟨rfl, rfl, rfl, rfl, rfl, handleImageUpload_isProcessing s f u det⟩

/-! ### Distance evaluation helpers -/

theorem euclideanDistance_single (x y : ℚ) :
    euclideanDistance [x] [y] = Real.sqrt (((x - y) ^ 2 : ℚ) : ℝ) := by
  simp [euclideanDistance, sumSqDiff]

theorem euclideanDistance_zero : euclideanDistance [0] [0] = 0 := by
  rw [euclideanDistance_single]
  norm_num

theorem euclideanDistance_half : euclideanDistance [0] [1/2] = 1/2 := by
  rw [euclideanDistance_single]
  rw [show ((((0:ℚ) - 1/2) ^ 2 : ℚ) : ℝ) = (1/2 : ℝ) ^ 2 by push_cast; norm_num]
  exact Real.sqrt_sq (by norm_num)

theorem euclideanDistance_sixFifths : euclideanDistance [0] [6/5] = 6/5 := by
  rw [euclideanDistance_single]
  rw [show ((((0:ℚ) - 6/5) ^ 2 : ℚ) : ℝ) = (6/5 : ℝ) ^ 2 by push_cast; norm_num]
  exact Real.sqrt_sq (by norm_num)

/-- A ready state with both images and both descriptors present, at
Euclidean distance 0 (equal descriptors). -/
def stDist0 : AppState :=
  { readyState with referenceImage := some "ref.png"
                    capturedImage := some "cap.jpg"
                    referenceDescriptor := some [0]
                    capturedDescriptor := some [0] }

/-- A ready state with both descriptors present at Euclidean
distance 1/2. -/
def stDist05 : AppState :=
  { readyState with referenceImage := some "ref.png"
                    capturedImage := some "cap.jpg"
                    referenceDescriptor := some [0]
                    capturedDescriptor := some [1/2] }

/-- A ready state with both descriptors present at Euclidean
distance 6/5. -/
def stDist12 : AppState :=
  { readyState with referenceImage := some "ref.png"
                    capturedImage := some "cap.jpg"
                    referenceDescriptor := some [0]
                    capturedDescriptor := some [6/5] }

theorem matchReported_update (s : AppState) (sim : ℝ) (b : Bool) :
    matchReported ({ s with matchResult := Msg.matchReport sim b }).matchResult = some b :=
  rfl

/-- C1: with both descriptors present, performFaceMatch reports a
match exactly when their Euclidean distance is below 0.5, and reports
no match whenever the distance is at least 0.5 (the boundary is
excluded from matching). -/
theorem claim_C1_match_iff_distance_lt_half (s : AppState) (rd cd : List ℚ)
    (h1 : s.referenceDescriptor = some rd) (h2 : s.capturedDescriptor = some cd) :
    (matchReported (performFaceMatch s).matchResult = some true
        ↔ euclideanDistance rd cd < 0.5) ∧
    (0.5 ≤ euclideanDistance rd cd
        → matchReported (performFaceMatch s).matchResult = some false) := by
  rw [performFaceMatch_some s rd cd h1 h2]
  have hmt : matchThreshold = 0.5 := rfl
  rw [hmt]
  by_cases hd : euclideanDistance rd cd < (0.5 : ℝ)
  · rw [if_pos hd, matchReported_update]
    exact ⟨⟨fun _ => hd, fun _ => rfl⟩, fun hle => absurd hd (not_lt.mpr hle)⟩
  · rw [if_neg hd, matchReported_update]
    exact ⟨⟨fun h => absurd (Option.some.inj h) Bool.false_ne_true, fun h => absurd h hd⟩,
      fun _ => rfl⟩

theorem claim_C1_match_iff_distance_lt_half_witness :
    matchReported (performFaceMatch stDist0).matchResult = some true :=
  (claim_C1_match_iff_distance_lt_half stDist0 [0] [0] rfl rfl).1.mpr
    (by rw [euclideanDistance_zero]; norm_num)

/-- C2: with both descriptors present, the similarity reported by
performFaceMatch equals the clamp to the interval from 0 to 100 of
(1 - d) * 100 where d is the Euclidean distance of the descriptors,
and every reported similarity lies between 0 and 100. -/
theorem claim_C2_similarity_clamped (s : AppState) (rd cd : List ℚ)
    (h1 : s.referenceDescriptor = some rd) (h2 : s.capturedDescriptor = some cd) :
    similarityReported (performFaceMatch s).matchResult
        = some (max 0 (min 100 ((1 - euclideanDistance rd cd) * 100))) ∧
    ∀ x, similarityReported (performFaceMatch s).matchResult = some x
        → 0 ≤ x ∧ x ≤ 100 := by
  rw [performFaceMatch_some s rd cd h1 h2]
  refine ⟨rfl, fun x hx => ?_⟩
  have hx2 : max 0 (min 100 ((1 - euclideanDistance rd cd) * 100)) = x :=
    Option.some.inj hx
  rw [← hx2]
  exact ⟨le_max_left 0 _, max_le (by norm_num) (min_le_left _ _)⟩

theorem claim_C2_similarity_clamped_witness :
    ∃ x, similarityReported (performFaceMatch stDist0).matchResult = some x
      ∧ 0 ≤ x ∧ x ≤ 100 := by
  obtain ⟨h1, h2⟩ := claim_C2_similarity_clamped stDist0 [0] [0] rfl rfl
  exact ⟨_, h1, h2 _ h1⟩

/-- C7: at distance 0 performFaceMatch reports similarity 100 and a
match, at distance 0.5 it reports similarity 50 and no match, and at
distance 1.2 it reports similarity 0 (clamped) and no match. -/
theorem claim_C7_numeric_examples :
    (performFaceMatch stDist0).matchResult = .matchReport 100 true ∧
    (performFaceMatch stDist05).matchResult = .matchReport 50 false ∧
    (performFaceMatch stDist12).matchResult = .matchReport 0 false := by
  have hmt : matchThreshold = 0.5 := rfl
  refine ⟨?_, ?_, ?_⟩
  · rw [performFaceMatch_some stDist0 [0] [0] rfl rfl, euclideanDistance_zero, hmt]
    norm_num [max_def, min_def]
  · rw [performFaceMatch_some stDist05 [0] [1/2] rfl rfl, euclideanDistance_half, hmt]
    norm_num [max_def, min_def]
  · rw [performFaceMatch_some stDist12 [0] [6/5] rfl rfl, euclideanDistance_sixFifths, hmt]
    norm_num [max_def, min_def]

/-! ### Temporal invariant after a failed model load -/

/-- The disabled regime: models not loaded and no descriptor ever
extracted. -/
def disabledInv (s : AppState) : Prop :=
  s.modelsLoaded = false ∧ s.referenceDescriptor = none ∧ s.capturedDescriptor = none

theorem step_preserves_disabledInv (s : AppState) (e : Event) (h : disabledInv s) :
    disabledInv (step s e) := by
  obtain ⟨h1, h2, h3⟩ := h
  cases e with
  | upload f u det =>
      have hu : handleImageUpload s f u det = s := by
        unfold handleImageUpload
        rw [h1]
        simp
      show disabledInv (handleImageUpload s f u det)
      rw [hu]
      exact ⟨h1, h2, h3⟩
  | capture r out =>
      have hc : captureImage s r out = s := by
        unfold captureImage
        rw [h1]
        simp
      show disabledInv (captureImage s r out)
      rw [hc]
      exact ⟨h1, h2, h3⟩
  | compare =>
      have hp : performFaceMatch s
          = { s with matchResult := .text "Please ensure both images have detected faces" } := by
        unfold performFaceMatch
        rw [h2, h3]
      show disabledInv (performFaceMatch s)
      rw [hp]
      exact ⟨h1, h2, h3⟩
  | reset =>
      exact ⟨h1, rfl, rfl⟩

theorem run_preserves_disabledInv (evs : List Event) (s : AppState) (h : disabledInv s) :
    disabledInv (run s evs) := by
  induction evs generalizing s with
  | nil => exact h
  | cons e evs ih => exact ih (step s e) (step_preserves_disabledInv s e h)

/-- C6: when the model load fails at startup, modelsLoaded stays false
along every subsequent sequence of user events, the loading indicator
stays shown, and neither the upload nor the capture operation ever
extracts a descriptor (both descriptor slots stay empty forever). -/
theorem claim_C6_load_failure_permanent (evs : List Event) :
    (run (loadModels initialState false) evs).modelsLoaded = false ∧
    loadingIndicatorShown (run (loadModels initialState false) evs) = true ∧
    (run (loadModels initialState false) evs).referenceDescriptor = none ∧
    (run (loadModels initialState false) evs).capturedDescriptor = none := by
  have h := run_preserves_disabledInv evs (loadModels initialState false) ⟨rfl, rfl, rfl⟩
  refine ⟨h.1, ?_, h.2.1, h.2.2⟩
  simp [loadingIndicatorShown, h.1]

end FaceRec
